import Mathlib

/-!
Shallow embedding of the statistical trend-analysis and business
health-scoring engine of `src/main.py`:

* `analyze_trend_v3` (main.py lines 44-80): linear trend with significance,
  year-over-year comparison, 3-month momentum, extrema, narrative assembly.
* `generate_executive_summary` (main.py lines 642-793): runs
  `analyze_trend_v3` over the three metric columns of `monthly_agg`
  (`TotalMonthlySales`, `TotalTransactions`, `AOV`), derives per-metric
  scores by substring matching on the narratives, classifies a composite
  health score, produces a contextual narrative and extracts the sales
  year-over-year change.

Numeric values are embedded as rationals.  A pandas NaN cell is `none`.
The p-value returned by `scipy.stats.linregress` (an external library,
not part of this repository) is abstracted as an explicit oracle
parameter `pValue : List ℚ → ℚ`; slope and intercept of the ordinary
least-squares fit are embedded exactly.  `pValueModel` below is a
spec-modelled instance of that oracle.
-/

set_option maxRecDepth 8000

namespace StreamlitDashboard

/-- A calendar month, the value of the `Bulan` column of `monthly_agg`
(a monthly `pandas.Period`: a year plus a month number 1..12). -/
structure Month where
  year : Int
  month : Nat
  deriving DecidableEq

/-- English month name, as the pandas strftime directive `%B` renders it. -/
def monthName (m : Nat) : String :=
  match m with
  | 1 => "January"
  | 2 => "February"
  | 3 => "March"
  | 4 => "April"
  | 5 => "May"
  | 6 => "June"
  | 7 => "July"
  | 8 => "August"
  | 9 => "September"
  | 10 => "October"
  | 11 => "November"
  | 12 => "December"
  | _ => ""

/-- The `strftime` rendering with directives `%B %Y` of the `Bulan` entry,
used in the extrema clause (main.py line 76). -/
def strftimeBY (m : Month) : String :=
  monthName m.month ++ " " ++ toString m.year

/-- One row of the `monthly_agg` dataframe (built at main.py lines 1616-1623):
columns `Bulan`, `TotalMonthlySales`, `TotalTransactions`, `AOV`.
A `none` entry is a NaN cell of that column. -/
structure MonthlyRow where
  bulan : Month
  totalMonthlySales : Option ℚ
  totalTransactions : Option ℚ
  aov : Option ℚ
  deriving DecidableEq

/-- `df_monthly.dropna(subset=[metric_col])`, restricted to the two columns
`analyze_trend_v3` reads: `Bulan` and the metric column selected by `col`. -/
def dropnaCol (df : List MonthlyRow) (col : MonthlyRow → Option ℚ) :
    List (Month × ℚ) :=
  df.filterMap (fun r => (col r).map (fun v => (r.bulan, v)))

/-- The metric column of the dropna-ed frame, `df[metric_col]`. -/
def valsOf (df : List MonthlyRow) (col : MonthlyRow → Option ℚ) : List ℚ :=
  (dropnaCol df col).map Prod.snd

/-- The dict returned by `analyze_trend_v3` (main.py line 80).  In the two
early-return branches (lines 47 and 51) only `narrative` is set; the other
keys are absent, embedded as `none`. -/
structure TrendResult where
  narrative : String
  trendline : Option (List ℚ) := none
  ma_line : Option (List ℚ) := none
  p_value : Option ℚ := none
  deriving DecidableEq

/-- The insufficient-data narrative (main.py line 47). -/
def insufficientMsg : String :=
  "Data tidak cukup untuk analisis tren (dibutuhkan minimal 3 bulan)."

/-- The constant-data narrative (main.py line 51). -/
def constantMsg : String :=
  "Data konstan, tidak ada tren yang bisa dianalisis."

/-- Sum of the regression x-coordinates `0..n-1` (the `x_val` column,
`np.arange(len(df))`, main.py line 53). -/
def sumX (n : Nat) : ℚ := ∑ i in Finset.range n, (i : ℚ)

/-- Sum of squares of the regression x-coordinates `0..n-1`. -/
def sumXX (n : Nat) : ℚ := ∑ i in Finset.range n, ((i : ℚ)) ^ 2

/-- Sum of the metric values. -/
def sumY (ys : List ℚ) : ℚ := ∑ i in Finset.range ys.length, ys.getD i 0

/-- Sum of `x * y` over the series. -/
def sumXY (ys : List ℚ) : ℚ :=
  ∑ i in Finset.range ys.length, (i : ℚ) * ys.getD i 0

/-- The OLS slope of `stats.linregress` applied to the `x_val` and metric columns
(main.py line 54): covariance over variance, in closed form
`(n·Σxy − Σx·Σy) / (n·Σx² − (Σx)²)`. -/
def slopeOf (ys : List ℚ) : ℚ :=
  ((ys.length : ℚ) * sumXY ys - sumX ys.length * sumY ys) /
    ((ys.length : ℚ) * sumXX ys.length - sumX ys.length ^ 2)

/-- The OLS intercept of the same fit: `ȳ − slope·x̄`. -/
def interceptOf (ys : List ℚ) : ℚ :=
  (sumY ys - slopeOf ys * sumX ys.length) / (ys.length : ℚ)

/-- Residual sum of squares of the OLS fit. -/
def sseOf (ys : List ℚ) : ℚ :=
  ∑ i in Finset.range ys.length,
    (ys.getD i 0 - (slopeOf ys * i + interceptOf ys)) ^ 2

/-- Modelled from the spec: the two-sided p-value of the slope t-test that
`scipy.stats.linregress` returns (main.py line 54); scipy itself is an
external library, absent from this repository.  The spec (section 4.1 step 1
and the glossary) pins the p-value down only through the significance
decision of a standard t-test on the slope.  For a perfect fit (all
residuals zero) the t statistic diverges and the reported p-value is 0; the
value 1/2 on imperfect fits is an arbitrary non-significant placeholder.
Every theorem below that depends on the numeric p-value beyond the
perfect-fit case quantifies over an arbitrary oracle instead. -/
def pValueModel (ys : List ℚ) : ℚ :=
  if sseOf ys = 0 then 0 else 1 / 2

/-- Python float formatting with the `.1%` spec, as in the f-strings of
main.py line 66: the fraction rendered as a percentage with one decimal
digit.  Ties are rounded here by Mathlib `round` (half away from zero);
Python rounds such half-way doubles to even, but no value appearing in the
claims is a tie. -/
def fmtPercent1 (q : ℚ) : String :=
  let m : Int := round (q * 1000)
  let n : Nat := m.natAbs
  (if m < 0 then "-" else "") ++ toString (n / 10) ++ "." ++ toString (n % 10) ++ "%"

/-- The trend classification fragment of the narrative (main.py lines 56-58). -/
def meningkatFull : String := "**meningkat** secara signifikan"

/-- The decreasing-trend fragment (main.py line 58). -/
def menurunFull : String := "**menurun** secara signifikan"

/-- The stable classification (main.py line 56). -/
def stabilStr : String := "stabil/fluktuatif"

/-- `trend_type` (main.py lines 56-58): `stabil/fluktuatif` unless
`p_value < 0.05`, in which case the sign of the slope picks the
increasing or decreasing fragment. -/
def trendTypeOf (p slope : ℚ) : String :=
  if p < 0.05 then (if slope > 0 then meningkatFull else menurunFull) else stabilStr

/-- `yoy_narrative` (main.py lines 60-67): present only when the dropna-ed
series has at least 13 rows and the value 12 months before the last
(`df.iloc[-13]`) is positive; then reports `(last - prior) / prior` as a
grown/declined percentage. -/
def yoyNarrativeOf (ys : List ℚ) : String :=
  if 13 ≤ ys.length then
    let lastVal := ys.getD (ys.length - 1) 0
    let yoyVal := ys.getD (ys.length - 13) 0
    if yoyVal > 0 then
      let yoyChange := (lastVal - yoyVal) / yoyVal
      let perf :=
        if yoyChange > 0 then "**tumbuh " ++ fmtPercent1 yoyChange ++ "**"
        else "**menurun " ++ fmtPercent1 |yoyChange| ++ "**"
      " Dibandingkan bulan yang sama tahun lalu, performa bulan terakhir " ++
        perf ++ "."
    else ""
  else ""

/-- `df[metric_col].rolling(window=3, min_periods=1).mean()` (main.py line
71): entry `i` is the mean of the window `ys[max(0,i-2) .. i]`. -/
def rollingMean3 (ys : List ℚ) : List ℚ :=
  (List.range ys.length).map (fun i =>
    let window := (ys.drop (i - 2)).take (i - (i - 2) + 1)
    window.sum / (window.length : ℚ))

/-- The positive-momentum clause (main.py line 72). -/
def positifClause : String :=
  " Momentum jangka pendek (3 bulan terakhir) terlihat **positif**."

/-- The slowing-momentum clause (main.py line 72). -/
def perlambatanClause : String :=
  " Momentum jangka pendek menunjukkan **perlambatan**."

/-- `momentum_narrative` (main.py lines 69-72): empty below 4 rows,
otherwise the positive clause when the last rolling-mean value strictly
exceeds the one before it, and the slowing clause in every other case. -/
def momentumNarrativeOf (ys : List ℚ) : String :=
  if 4 ≤ ys.length then
    let ma := rollingMean3 ys
    if ma.getD (ys.length - 1) 0 > ma.getD (ys.length - 2) 0 then positifClause
    else perlambatanClause
  else ""

/-- `df.loc[df[metric_col].idxmax()]` (main.py line 74): the first row
attaining the maximum metric value (pandas `idxmax` breaks ties by first
occurrence; the fold replaces the current best only on a strictly larger
value). -/
def argmaxPair : List (Month × ℚ) → Option (Month × ℚ)
  | [] => none
  | p :: ps => some (ps.foldl (fun best q => if q.2 > best.2 then q else best) p)

/-- `df.loc[df[metric_col].idxmin()]` (main.py line 75), first occurrence. -/
def argminPair : List (Month × ℚ) → Option (Month × ℚ)
  | [] => none
  | p :: ps => some (ps.foldl (fun best q => if q.2 < best.2 then q else best) p)

/-- `extrema_narrative` (main.py line 76). The list is non-empty whenever
this is reached, so the `none` fallback is dead. -/
def extremaNarrativeOf (rows : List (Month × ℚ)) : String :=
  match argmaxPair rows, argminPair rows with
  | some mx, some mn =>
      " Performa tertinggi tercatat pada **" ++ strftimeBY mx.1 ++
        "** dan terendah pada **" ++ strftimeBY mn.1 ++ "**."
  | _, _ => ""

/-- `analyze_trend_v3(df_monthly, metric_col, metric_label)` (main.py lines
44-80), with the scipy p-value supplied by the oracle `pValue`.  The column
name `metric_col` is embedded as the column selector `col`. -/
def analyzeTrendV3 (pValue : List ℚ → ℚ) (dfMonthly : List MonthlyRow)
    (col : MonthlyRow → Option ℚ) (metricLabel : String) : TrendResult :=
  if (dropnaCol dfMonthly col).length < 3 then
    { narrative := insufficientMsg }
  else
    let df := dropnaCol dfMonthly col
    let ys := df.map Prod.snd
    if ys.dedup.length ≤ 1 then
      { narrative := constantMsg }
    else
      let slope := slopeOf ys
      let intercept := interceptOf ys
      let trendline :=
        (List.range ys.length).map (fun (i : Nat) => slope * (i : ℚ) + intercept)
      let p := pValue ys
      let trendType := trendTypeOf p slope
      let yoyNarr := yoyNarrativeOf ys
      let maLine : Option (List ℚ) :=
        if 4 ≤ ys.length then some (rollingMean3 ys) else none
      let momentumNarr := momentumNarrativeOf ys
      let extremaNarr := extremaNarrativeOf df
      { narrative :=
          "Secara keseluruhan, tren " ++ metricLabel ++ " cenderung " ++
            trendType ++ "." ++ momentumNarr ++ yoyNarr ++ extremaNarr,
        trendline := some trendline,
        ma_line := maLine,
        p_value := some p }

/-- The Python substring operator `needle in hay` used on narratives
throughout `generate_executive_summary`. -/
def pyIn (needle hay : String) : Prop :=
  needle.data <:+: hay.data

instance (needle hay : String) : Decidable (pyIn needle hay) :=
  List.decidableInfix needle.data hay.data

/-- The needle of main.py lines 666, 699, 701, 702: note it lacks the two
leading asterisks of the generated fragment. -/
def upNeedle : String := "meningkat** secara signifikan"

/-- The needle of main.py lines 668, 700, 703. -/
def downNeedle : String := "menurun** secara signifikan"

/-- The needle of main.py line 672. -/
def positifNeedle : String :=
  "Momentum jangka pendek (3 bulan terakhir) terlihat **positif**"

/-- The needle of main.py line 674. -/
def perlambatanNeedle : String :=
  "Momentum jangka pendek menunjukkan **perlambatan**"

/-- `trend_score` (main.py lines 661-669): +2 on a significantly increasing
narrative, -2 on a significantly decreasing one, else 0. -/
def trendScoreOf (narrative : String) : Int :=
  if pyIn upNeedle narrative then 2
  else if pyIn downNeedle narrative then -2
  else 0

/-- `momentum_score` (main.py lines 671-675): +1 on positive momentum,
-1 on slowing momentum, else 0. -/
def momentumScoreOf (narrative : String) : Int :=
  if pyIn positifNeedle narrative then 1
  else if pyIn perlambatanNeedle narrative then -1
  else 0

/-- One entry of `score_details` (main.py lines 680-684): keys `total`,
`tren_jangka_panjang`, `momentum_jangka_pendek`. -/
structure ScoreDetail where
  total : Int
  trenJangkaPanjang : Int
  momentumJangkaPendek : Int
  deriving DecidableEq

/-- The per-metric scoring of main.py lines 660-684 applied to one
narrative: `total_metric_score = trend_score + momentum_score`. -/
def metricScoreOf (narrative : String) : ScoreDetail :=
  let trendScore := trendScoreOf narrative
  let momentumScore := momentumScoreOf narrative
  { total := trendScore + momentumScore,
    trenJangkaPanjang := trendScore,
    momentumJangkaPendek := momentumScore }

/-- The status classification of main.py lines 688-695: default
`("Perlu Perhatian", "orange")`, overridden first-match by `> 4`,
`>= 1`, `<= -4`. -/
def healthStatusColor (healthScore : Int) : String × String :=
  if healthScore > 4 then ("Sangat Baik", "green")
  else if healthScore ≥ 1 then ("Baik", "green")
  else if healthScore ≤ -4 then ("Waspada", "red")
  else ("Perlu Perhatian", "orange")

/-- Context message of main.py line 706 (growth driven by basket value). -/
def insightMsg : String :=
  "💡 **Insight Kunci:** Pertumbuhan didorong oleh **nilai belanja yang lebih tinggi (AOV naik)**, bukan dari penambahan jumlah transaksi."

/-- Context message of main.py line 708 (possible excessive discounting). -/
def diskonMsg : String :=
  "⚠️ **Perhatian:** Penjualan naik karena **volume transaksi yang tinggi**, namun AOV turun. Ini bisa jadi sinyal **terlalu banyak diskon** atau pergeseran ke produk yang lebih murah."

/-- Context message of main.py line 710 (AOV decline suppressing sales). -/
def waspadaMsg : String :=
  "🚨 **Waspada:** Jumlah transaksi mungkin naik, tapi **penurunan AOV yang tajam** menekan total penjualan secara signifikan. Analisis strategi harga dan promosi."

/-- `health_context_narrative` (main.py lines 697-710): the three diagnostic
patterns over the substring booleans `sales_up`, `sales_down`, `trx_up`,
`aov_up`, `aov_down`, first match wins, default empty string. -/
def contextNarrativeOf (salesNarr trxNarr aovNarr : String) : String :=
  if pyIn upNeedle salesNarr ∧ pyIn upNeedle aovNarr ∧ ¬ pyIn upNeedle trxNarr then
    insightMsg
  else if pyIn upNeedle salesNarr ∧ pyIn upNeedle trxNarr ∧ pyIn downNeedle aovNarr then
    diskonMsg
  else if pyIn downNeedle salesNarr ∧ pyIn upNeedle trxNarr ∧ pyIn downNeedle aovNarr then
    waspadaMsg
  else ""

/-- `yoy_change_value` (main.py lines 713-718): re-derived from the sales
column of `monthly_agg` when the sales narrative carries the YoY sentence,
guarded again by `len >= 13` and a positive 12-months-prior value. -/
def yoyChangeValueOf (salesNarrative : String) (monthlyAgg : List MonthlyRow) :
    Option ℚ :=
  if pyIn "Dibandingkan bulan yang sama tahun lalu" salesNarrative then
    let df := monthlyAgg.filterMap (fun r => r.totalMonthlySales)
    if 13 ≤ df.length then
      let lastVal := df.getD (df.length - 1) 0
      let yoyVal := df.getD (df.length - 13) 0
      if yoyVal > 0 then some ((lastVal - yoyVal) / yoyVal) else none
    else none
  else none

/-- The result of `generate_executive_summary` (main.py lines 784-793),
restricted to the health-scoring core.  `healthScore` is the internal
accumulator `health_score` of lines 659-686 (not a key of the returned
dict, exposed here so the claims about it can be stated).  The
`recommendations` and `next_focus` keys only assemble text from external
auxiliary analyses of `df_filtered` (menu, channel, operational
efficiency, lines 720-781) that the spec declares out of scope; they are
omitted from the embedding and no claim mentions them. -/
structure ExecSummary where
  healthStatus : String
  healthColor : String
  yoyChange : Option ℚ
  trendNarrative : String
  healthContextNarrative : String
  scoreDetails : List (String × ScoreDetail)
  healthScore : Int
  deriving DecidableEq

/-- `generate_executive_summary(df_filtered, monthly_agg)` (main.py lines
642-793), health-scoring core: the three `analyze_trend_v3` calls of lines
651-655, the scoring loop of lines 657-686 (dict order `Penjualan`,
`Transaksi`, `AOV`), the status classification of lines 688-695, the
context narrative of lines 697-710 and the YoY extraction of lines
713-718. -/
def generateExecutiveSummary (pValue : List ℚ → ℚ)
    (monthlyAgg : List MonthlyRow) : ExecSummary :=
  let salesAnalysis :=
    analyzeTrendV3 pValue monthlyAgg (fun r => r.totalMonthlySales) "Penjualan"
  let trxAnalysis :=
    analyzeTrendV3 pValue monthlyAgg (fun r => r.totalTransactions) "Transaksi"
  let aovAnalysis := analyzeTrendV3 pValue monthlyAgg (fun r => r.aov) "AOV"
  let salesDetail := metricScoreOf salesAnalysis.narrative
  let trxDetail := metricScoreOf trxAnalysis.narrative
  let aovDetail := metricScoreOf aovAnalysis.narrative
  let healthScore := salesDetail.total + trxDetail.total + aovDetail.total
  let sc := healthStatusColor healthScore
  { healthStatus := sc.1,
    healthColor := sc.2,
    yoyChange := yoyChangeValueOf salesAnalysis.narrative monthlyAgg,
    trendNarrative := salesAnalysis.narrative,
    healthContextNarrative :=
      contextNarrativeOf salesAnalysis.narrative trxAnalysis.narrative
        aovAnalysis.narrative,
    scoreDetails :=
      [("Penjualan", salesDetail), ("Transaksi", trxDetail), ("AOV", aovDetail)],
    healthScore := healthScore }

/-- The local dataframe `df` of `analyze_trend_v3`: created at main.py line
49 by `df_monthly.dropna(subset=[metric_col]).copy()` as a fresh object,
so the in-place column assignment `x_val` column assignment of
line 53 mutates only this copy.  `xVal` is `none` until that assignment. -/
structure LocalDF where
  rows : List (Month × ℚ)
  xVal : Option (List ℚ)
  deriving DecidableEq

/-- State-passing rendition of `analyze_trend_v3` for the frame condition:
the first component threads the `df_monthly` object of the caller through the
call, and the only mutation of the function body (line 53) is applied to
the `LocalDF` copy allocated at line 49; every other pandas call used
(`dropna`, `rolling`, `idxmax`, `idxmin`, `linregress`) returns a fresh
value.  The final state of that caller object is returned alongside the
result. -/
def analyzeTrendV3Run (pValue : List ℚ → ℚ) (dfMonthly : List MonthlyRow)
    (col : MonthlyRow → Option ℚ) (metricLabel : String) :
    List MonthlyRow × TrendResult :=
  if (dropnaCol dfMonthly col).length < 3 then
    (dfMonthly, { narrative := insufficientMsg })
  else
    let df0 : LocalDF := { rows := dropnaCol dfMonthly col, xVal := none }
    let ys := df0.rows.map Prod.snd
    if ys.dedup.length ≤ 1 then
      (dfMonthly, { narrative := constantMsg })
    else
      let df1 : LocalDF :=
        { df0 with
          xVal := some ((List.range df0.rows.length).map (fun (i : Nat) => (i : ℚ))) }
      let slope := slopeOf ys
      let intercept := interceptOf ys
      let trendline :=
        (List.range ys.length).map (fun (i : Nat) => slope * (i : ℚ) + intercept)
      let p := pValue ys
      let trendType := trendTypeOf p slope
      let yoyNarr := yoyNarrativeOf ys
      let maLine : Option (List ℚ) :=
        if 4 ≤ ys.length then some (rollingMean3 ys) else none
      let momentumNarr := momentumNarrativeOf ys
      let extremaNarr := extremaNarrativeOf df1.rows
      (dfMonthly,
        { narrative :=
            "Secara keseluruhan, tren " ++ metricLabel ++ " cenderung " ++
              trendType ++ "." ++ momentumNarr ++ yoyNarr ++ extremaNarr,
          trendline := some trendline,
          ma_line := maLine,
          p_value := some p })

/-- The sales narrative of the `analyses` dict (main.py line 652). -/
def salesNarr (pValue : List ℚ → ℚ) (monthlyAgg : List MonthlyRow) : String :=
  (analyzeTrendV3 pValue monthlyAgg (fun r => r.totalMonthlySales) "Penjualan").narrative

/-- The transactions narrative of the `analyses` dict (main.py line 653). -/
def trxNarr (pValue : List ℚ → ℚ) (monthlyAgg : List MonthlyRow) : String :=
  (analyzeTrendV3 pValue monthlyAgg (fun r => r.totalTransactions) "Transaksi").narrative

/-- The AOV narrative of the `analyses` dict (main.py line 654). -/
def aovNarr (pValue : List ℚ → ℚ) (monthlyAgg : List MonthlyRow) : String :=
  (analyzeTrendV3 pValue monthlyAgg (fun r => r.aov) "AOV").narrative

/-- A perfectly linear monthly series: `a, a+d, a+2d, ...` of length `n`. -/
def arithL (a d : ℚ) (n : Nat) : List ℚ :=
  (List.range n).map (fun (i : Nat) => a + d * (i : ℚ))

/-- The month `i` months after January 2024, for building concrete frames. -/
def monthFrom2024 (i : Nat) : Month :=
  { year := 2024 + (i / 12 : Nat), month := i % 12 + 1 }

/-- A concrete four-month frame whose sales column is `5, 1, 2, 5`: its last
two 3-month rolling means are both `8/3`. -/
def eqMaFrame : List MonthlyRow :=
  [⟨monthFrom2024 0, some 5, some 1, some 5⟩,
   ⟨monthFrom2024 1, some 1, some 1, some 1⟩,
   ⟨monthFrom2024 2, some 2, some 1, some 2⟩,
   ⟨monthFrom2024 3, some 5, some 1, some 5⟩]

/-- A concrete 13-month frame: sales `100` for twelve months then `150`
(year-over-year change `+50%`), transactions constant `5`, AOV the
consistent `sales / transactions`. -/
def yoyFrame : List MonthlyRow :=
  (List.range 12).map
      (fun i => (⟨monthFrom2024 i, some 100, some 5, some 20⟩ : MonthlyRow)) ++
    [⟨monthFrom2024 12, some 150, some 5, some 30⟩]

/-- A concrete four-month frame for the basket-value scenario: sales and AOV
rise perfectly linearly (`10,20,30,40`), transactions are constant `1`. -/
def basketFrame : List MonthlyRow :=
  [⟨monthFrom2024 0, some 10, some 1, some 10⟩,
   ⟨monthFrom2024 1, some 20, some 1, some 20⟩,
   ⟨monthFrom2024 2, some 30, some 1, some 30⟩,
   ⟨monthFrom2024 3, some 40, some 1, some 40⟩]

/-- A two-observation frame (insufficient data). -/
def shortFrame : List MonthlyRow :=
  [⟨monthFrom2024 0, some 7, some 1, some 7⟩,
   ⟨monthFrom2024 1, some 9, some 1, some 9⟩]

/-- A six-month frame whose transaction column is constant `500`. -/
def flatFrame : List MonthlyRow :=
  (List.range 6).map
    (fun i => (⟨monthFrom2024 i, some 1000, some 500, some 2⟩ : MonthlyRow))

/-- A six-month frame whose sales column is the synthetic perfectly
linear series `100, 200, 300, 400, 500, 600`. -/
def linFrame : List MonthlyRow :=
  [⟨monthFrom2024 0, some 100, some 5, none⟩,
   ⟨monthFrom2024 1, some 200, some 5, none⟩,
   ⟨monthFrom2024 2, some 300, some 5, none⟩,
   ⟨monthFrom2024 3, some 400, some 5, none⟩,
   ⟨monthFrom2024 4, some 500, some 5, none⟩,
   ⟨monthFrom2024 5, some 600, some 5, none⟩]

section Helpers

/-- Substring containment is reflexive. -/
lemma pyIn_refl (s : String) : pyIn s s :=
  ⟨[], [], by simp⟩

/-- Substring containment persists under appending on the right. -/
lemma pyIn_appendR (n a b : String) (h : pyIn n a) : pyIn n (a ++ b) := by
  obtain ⟨s, t, hst⟩ := h
  exact ⟨s, t ++ b.data, by rw [String.data_append, ← hst]; simp⟩

/-- Substring containment persists under appending on the left. -/
lemma pyIn_appendL (n a b : String) (h : pyIn n b) : pyIn n (a ++ b) := by
  obtain ⟨s, t, hst⟩ := h
  exact ⟨a.data ++ s, t, by rw [String.data_append, ← hst]; simp⟩

/-- Substring containment is transitive. -/
lemma pyIn_trans {a b c : String} (h₁ : pyIn a b) (h₂ : pyIn b c) : pyIn a c :=
  List.IsInfix.trans h₁ h₂

/-- A deduplicated list has at most one element iff all elements coincide. -/
lemma dedup_length_le_one_iff {l : List ℚ} :
    l.dedup.length ≤ 1 ↔ ∀ x ∈ l, ∀ y ∈ l, x = y := by
  constructor
  · intro h x hx y hy
    have hx' : x ∈ l.dedup := List.mem_dedup.2 hx
    have hy' : y ∈ l.dedup := List.mem_dedup.2 hy
    match hd : l.dedup with
    | [] => rw [hd] at hx'; cases hx'
    | [a] =>
      rw [hd] at hx' hy'
      simp at hx' hy'
      rw [hx', hy']
    | a :: b :: t => rw [hd] at h; simp at h
  · intro h
    match hd : l.dedup with
    | [] => simp
    | [a] => simp
    | a :: b :: t =>
      exfalso
      have ha : a ∈ l := List.mem_dedup.1 (by rw [hd]; simp)
      have hb : b ∈ l := List.mem_dedup.1 (by rw [hd]; simp)
      have hnd : l.dedup.Nodup := List.nodup_dedup l
      rw [hd] at hnd
      have : a ≠ b := by
        intro hab
        exact (List.nodup_cons.1 hnd).1 (by rw [hab]; simp)
      exact this (h a ha b hb)

/-- Two distinct members force more than one deduplicated element. -/
lemma one_lt_dedup_length {l : List ℚ} {x y : ℚ} (hx : x ∈ l) (hy : y ∈ l)
    (hxy : x ≠ y) : 1 < l.dedup.length := by
  by_contra h
  exact hxy (dedup_length_le_one_iff.1 (by omega) x hx y hy)

/-- The dropna-ed frame and its value column have the same length. -/
lemma valsOf_length (df : List MonthlyRow) (col : MonthlyRow → Option ℚ) :
    (valsOf df col).length = (dropnaCol df col).length := by
  simp [valsOf]

/-- Gauss sum of the regression x-coordinates. -/
lemma sumX_eq (n : Nat) : sumX n = n * (n - 1) / 2 := by
  unfold sumX
  induction n with
  | zero => simp
  | succ m ih =>
    rw [Finset.sum_range_succ, ih]
    push_cast
    ring

/-- Sum of squares of the regression x-coordinates. -/
lemma sumXX_eq (n : Nat) : sumXX n = n * (n - 1) * (2 * n - 1) / 6 := by
  unfold sumXX
  induction n with
  | zero => simp
  | succ m ih =>
    rw [Finset.sum_range_succ, ih]
    push_cast
    ring

/-- Length of the perfectly linear series. -/
lemma arithL_length (a d : ℚ) (n : Nat) : (arithL a d n).length = n := by
  rw [arithL, List.length_map, List.length_range]

/-- Entries of the perfectly linear series. -/
lemma arithL_getD (a d : ℚ) {n i : Nat} (h : i < n) :
    (arithL a d n).getD i 0 = a + d * i := by
  rw [arithL, List.getD_eq_getElem?_getD, List.getElem?_map, List.getElem?_range h]
  rfl

/-- Value sum of the perfectly linear series. -/
lemma sumY_arith (a d : ℚ) (n : Nat) :
    sumY (arithL a d n) = n * a + d * sumX n := by
  unfold sumY sumX
  rw [arithL_length]
  rw [Finset.sum_congr rfl (fun i hi => arithL_getD a d (Finset.mem_range.1 hi))]
  rw [Finset.sum_add_distrib, Finset.sum_const, Finset.card_range, nsmul_eq_mul,
    ← Finset.mul_sum]

/-- Cross sum of the perfectly linear series. -/
lemma sumXY_arith (a d : ℚ) (n : Nat) :
    sumXY (arithL a d n) = a * sumX n + d * sumXX n := by
  unfold sumXY sumX sumXX
  rw [arithL_length]
  have h : ∀ i ∈ Finset.range n,
      (i : ℚ) * ((arithL a d n).getD i 0) = a * i + d * (i : ℚ) ^ 2 := by
    intro i hi
    rw [arithL_getD a d (Finset.mem_range.1 hi)]
    ring
  rw [Finset.sum_congr rfl h, Finset.sum_add_distrib, ← Finset.mul_sum,
    ← Finset.mul_sum]

/-- Closed form of the regression denominator `n·Σx² − (Σx)²`. -/
lemma regDenom_eq (n : Nat) :
    (n : ℚ) * sumXX n - sumX n ^ 2 = (n : ℚ) ^ 2 * ((n : ℚ) ^ 2 - 1) / 12 := by
  rw [sumX_eq, sumXX_eq]
  ring

/-- The regression denominator is positive once there are two x-values. -/
lemma regDenom_pos {n : Nat} (h : 2 ≤ n) :
    0 < (n : ℚ) * sumXX n - sumX n ^ 2 := by
  rw [regDenom_eq]
  have h2 : (2 : ℚ) ≤ (n : ℚ) := by exact_mod_cast h
  have h3 : (1 : ℚ) ≤ (n : ℚ) ^ 2 - 1 := by nlinarith
  have h4 : (0 : ℚ) < (n : ℚ) ^ 2 := by nlinarith
  positivity

/-- The OLS slope of a perfectly linear series is its common difference. -/
lemma slope_arith (a d : ℚ) {n : Nat} (h : 2 ≤ n) :
    slopeOf (arithL a d n) = d := by
  unfold slopeOf
  rw [arithL_length, sumY_arith, sumXY_arith]
  have hD : (n : ℚ) * sumXX n - sumX n ^ 2 ≠ 0 := ne_of_gt (regDenom_pos h)
  rw [show (n : ℚ) * (a * sumX n + d * sumXX n) -
        sumX n * ((n : ℚ) * a + d * sumX n) =
        d * ((n : ℚ) * sumXX n - sumX n ^ 2) from by ring]
  rw [mul_div_assoc, div_self hD, mul_one]

/-- The OLS intercept of a perfectly linear series is its first value. -/
lemma intercept_arith (a d : ℚ) {n : Nat} (h : 2 ≤ n) :
    interceptOf (arithL a d n) = a := by
  unfold interceptOf
  rw [arithL_length, sumY_arith, slope_arith a d h]
  have hn : (n : ℚ) ≠ 0 := by
    have : 0 < (n : ℚ) := by exact_mod_cast Nat.lt_of_lt_of_le Nat.zero_lt_two h
    exact ne_of_gt this
  rw [show (n : ℚ) * a + d * sumX n - d * sumX n = (n : ℚ) * a from by ring]
  exact mul_div_cancel_left₀ a hn

/-- A perfectly linear series has zero residual sum of squares. -/
lemma sse_arith (a d : ℚ) {n : Nat} (h : 2 ≤ n) :
    sseOf (arithL a d n) = 0 := by
  unfold sseOf
  rw [arithL_length, slope_arith a d h, intercept_arith a d h]
  apply Finset.sum_eq_zero
  intro i hi
  rw [arithL_getD a d (Finset.mem_range.1 hi)]
  ring

/-- The modelled scipy p-value vanishes on a perfectly linear series. -/
lemma pValueModel_arith (a d : ℚ) {n : Nat} (h : 2 ≤ n) :
    pValueModel (arithL a d n) = 0 := by
  simp [pValueModel, sse_arith a d h]

/-- Evaluation of `analyze_trend_v3` on an insufficient series
(main.py lines 46-47). -/
lemma analyzeTrendV3_insufficient (pv : List ℚ → ℚ) (df : List MonthlyRow)
    (col : MonthlyRow → Option ℚ) (label : String)
    (h : (dropnaCol df col).length < 3) :
    analyzeTrendV3 pv df col label = { narrative := insufficientMsg } := by
  simp only [analyzeTrendV3, if_pos h]

/-- Evaluation of `analyze_trend_v3` on a constant series
(main.py lines 50-51). -/
lemma analyzeTrendV3_constant (pv : List ℚ → ℚ) (df : List MonthlyRow)
    (col : MonthlyRow → Option ℚ) (label : String)
    (h3 : ¬ (dropnaCol df col).length < 3)
    (hc : (valsOf df col).dedup.length ≤ 1) :
    analyzeTrendV3 pv df col label = { narrative := constantMsg } := by
  unfold valsOf at hc
  simp only [analyzeTrendV3, if_neg h3, hc, if_pos, if_true]

/-- Evaluation of `analyze_trend_v3` past both guards (main.py lines
53-80): the result is the assembled narrative, the fitted trend line, the
rolling mean when at least 4 rows exist, and the oracle p-value. -/
lemma analyzeTrendV3_ok (pv : List ℚ → ℚ) (df : List MonthlyRow)
    (col : MonthlyRow → Option ℚ) (label : String)
    (h3 : 3 ≤ (dropnaCol df col).length)
    (hc : 1 < (valsOf df col).dedup.length) :
    analyzeTrendV3 pv df col label =
      { narrative :=
          "Secara keseluruhan, tren " ++ label ++ " cenderung " ++
            trendTypeOf (pv (valsOf df col)) (slopeOf (valsOf df col)) ++ "." ++
            momentumNarrativeOf (valsOf df col) ++
            yoyNarrativeOf (valsOf df col) ++
            extremaNarrativeOf (dropnaCol df col),
        trendline := some ((List.range (valsOf df col).length).map
          (fun (i : Nat) =>
            slopeOf (valsOf df col) * (i : ℚ) + interceptOf (valsOf df col))),
        ma_line :=
          if 4 ≤ (valsOf df col).length then some (rollingMean3 (valsOf df col))
          else none,
        p_value := some (pv (valsOf df col)) } := by
  have h1 : ¬ (dropnaCol df col).length < 3 := by omega
  have h2 : ¬ ((dropnaCol df col).map Prod.snd).dedup.length ≤ 1 := by
    unfold valsOf at hc
    omega
  simp only [analyzeTrendV3, if_neg h1, if_neg h2, valsOf]

/-- A `getD` at an in-range index is a member of the list. -/
lemma getD_mem_of_lt {l : List ℚ} {i : Nat} (h : i < l.length) :
    l.getD i 0 ∈ l := by
  rw [List.getD_eq_getElem l 0 h]
  exact List.getElem_mem h

/-- Momentum evaluation, rising case (main.py line 72, then-branch). -/
lemma momentumNarrativeOf_pos {ys : List ℚ} (h4 : 4 ≤ ys.length)
    (hgt : (rollingMean3 ys).getD (ys.length - 1) 0 >
      (rollingMean3 ys).getD (ys.length - 2) 0) :
    momentumNarrativeOf ys = positifClause := by
  simp only [momentumNarrativeOf, if_pos h4, if_pos hgt]

/-- Momentum evaluation, non-rising case (main.py line 72, else-branch). -/
lemma momentumNarrativeOf_slow {ys : List ℚ} (h4 : 4 ≤ ys.length)
    (hle : ¬ (rollingMean3 ys).getD (ys.length - 1) 0 >
      (rollingMean3 ys).getD (ys.length - 2) 0) :
    momentumNarrativeOf ys = perlambatanClause := by
  simp only [momentumNarrativeOf, if_pos h4, if_neg hle]

/-- The scored needle sits inside the generated increasing fragment. -/
lemma upNeedle_in_meningkat : pyIn upNeedle meningkatFull := by decide

/-- The scored needle sits inside the generated decreasing fragment. -/
lemma downNeedle_in_menurun : pyIn downNeedle menurunFull := by decide

/-- The positive-momentum needle sits inside the generated clause. -/
lemma positifNeedle_in_clause : pyIn positifNeedle positifClause := by decide

/-- The slowing-momentum needle sits inside the generated clause. -/
lemma perlambatanNeedle_in_clause : pyIn perlambatanNeedle perlambatanClause := by
  decide

/-- The trend-type fragment is a substring of the assembled narrative. -/
lemma pyIn_narrative_trend (label tt mom yoy ext : String) :
    pyIn tt ("Secara keseluruhan, tren " ++ label ++ " cenderung " ++ tt ++ "." ++
      mom ++ yoy ++ ext) := by
  apply pyIn_appendR
  apply pyIn_appendR
  apply pyIn_appendR
  apply pyIn_appendR
  exact pyIn_appendL _ _ _ (pyIn_refl tt)

/-- The momentum clause is a substring of the assembled narrative. -/
lemma pyIn_narrative_mom (label tt mom yoy ext : String) :
    pyIn mom ("Secara keseluruhan, tren " ++ label ++ " cenderung " ++ tt ++ "." ++
      mom ++ yoy ++ ext) := by
  apply pyIn_appendR
  apply pyIn_appendR
  exact pyIn_appendL _ _ _ (pyIn_refl mom)

/-- The YoY clause is a substring of the assembled narrative. -/
lemma pyIn_narrative_yoy (label tt mom yoy ext : String) :
    pyIn yoy ("Secara keseluruhan, tren " ++ label ++ " cenderung " ++ tt ++ "." ++
      mom ++ yoy ++ ext) := by
  apply pyIn_appendR
  exact pyIn_appendL _ _ _ (pyIn_refl yoy)

/-- The long-term trend score takes only the values -2, 0, 2
(main.py lines 661-669). -/
lemma trendScoreOf_cases (narr : String) :
    trendScoreOf narr = -2 ∨ trendScoreOf narr = 0 ∨ trendScoreOf narr = 2 := by
  unfold trendScoreOf
  split_ifs <;> simp

/-- The momentum score takes only the values -1, 0, 1
(main.py lines 671-675). -/
lemma momentumScoreOf_cases (narr : String) :
    momentumScoreOf narr = -1 ∨ momentumScoreOf narr = 0 ∨ momentumScoreOf narr = 1 := by
  unfold momentumScoreOf
  split_ifs <;> simp

/-- The per-metric total lies in `[-3, 3]`. -/
lemma metricScoreOf_total_bounds (narr : String) :
    -3 ≤ (metricScoreOf narr).total ∧ (metricScoreOf narr).total ≤ 3 := by
  have ht := trendScoreOf_cases narr
  have hm := momentumScoreOf_cases narr
  simp only [metricScoreOf]
  rcases ht with h | h | h <;> rcases hm with h' | h' | h' <;> rw [h, h'] <;> norm_num

/-- The status classification takes only its four hard-coded values
(main.py lines 688-695). -/
lemma healthStatusColor_cases (s : Int) :
    healthStatusColor s = ("Sangat Baik", "green") ∨
      healthStatusColor s = ("Baik", "green") ∨
      healthStatusColor s = ("Perlu Perhatian", "orange") ∨
      healthStatusColor s = ("Waspada", "red") := by
  unfold healthStatusColor
  split_ifs <;> simp

/-- Python renders the fraction 1/2 as `50.0%` under the `.1%` format. -/
lemma fmtPercent1_half : fmtPercent1 (1 / 2) = "50.0%" := by
  norm_num [fmtPercent1]
  decide

/-- YoY evaluation on a 13-row series going from 100 to 150
(main.py lines 60-67). -/
lemma yoy_100_150 {ys : List ℚ} (h13 : ys.length = 13)
    (h0 : ys.getD 0 0 = 100) (h12 : ys.getD 12 0 = 150) :
    yoyNarrativeOf ys =
      " Dibandingkan bulan yang sama tahun lalu, performa bulan terakhir **tumbuh 50.0%**." := by
  unfold yoyNarrativeOf
  rw [List.getD_eq_getElem?_getD] at h0 h12
  rw [h13]
  norm_num
  rw [h0, h12]
  rw [show ((150 : ℚ) - 100) / 100 = 1 / 2 from by norm_num]
  rw [if_pos (by norm_num : (0 : ℚ) < 100)]
  rw [if_pos (by norm_num : (0 : ℚ) < 1 / 2)]
  rw [fmtPercent1_half]
  decide

/-- The sales column of `eqMaFrame`. -/
lemma eqMaFrame_vals :
    valsOf eqMaFrame (fun r => r.totalMonthlySales) = [5, 1, 2, 5] := by decide

/-- The last two 3-month rolling means of `5, 1, 2, 5` are both `8/3`. -/
lemma eqMaFrame_rolling :
    rollingMean3 ([5, 1, 2, 5] : List ℚ) = [5, 3, 8 / 3, 8 / 3] := by
  simp [rollingMean3, List.range_succ]
  norm_num

/-- The sales column of `yoyFrame`. -/
lemma yoyFrame_vals :
    valsOf yoyFrame (fun r => r.totalMonthlySales) =
      [100, 100, 100, 100, 100, 100, 100, 100, 100, 100, 100, 100, 150] := by
  decide

/-- The sales column of `basketFrame`. -/
lemma basketFrame_sales :
    valsOf basketFrame (fun r => r.totalMonthlySales) = [10, 20, 30, 40] := by
  decide

/-- The AOV column of `basketFrame`. -/
lemma basketFrame_aov :
    valsOf basketFrame (fun r => r.aov) = [10, 20, 30, 40] := by decide

/-- The transaction column of `basketFrame` is constant. -/
lemma basketFrame_trx :
    valsOf basketFrame (fun r => r.totalTransactions) = [1, 1, 1, 1] := by decide

/-- The sales column of `linFrame`. -/
lemma linFrame_vals :
    valsOf linFrame (fun r => r.totalMonthlySales) =
      [100, 200, 300, 400, 500, 600] := by decide

/-- The concrete form of the four-term perfectly linear series `10, 20, 30, 40`. -/
lemma arithL_10_10_4 : arithL 10 10 4 = [10, 20, 30, 40] := by
  simp [arithL, List.range_succ]
  norm_num

/-- The concrete form of the example series of the spec. -/
lemma arithL_100_100_6 : arithL 100 100 6 = [100, 200, 300, 400, 500, 600] := by
  simp [arithL, List.range_succ]
  norm_num

/-- Field access on the summary: the composite health score is the sum of
the three per-metric totals (main.py lines 659-686). -/
lemma summary_healthScore (pv : List ℚ → ℚ) (agg : List MonthlyRow) :
    (generateExecutiveSummary pv agg).healthScore =
      (metricScoreOf (salesNarr pv agg)).total +
        (metricScoreOf (trxNarr pv agg)).total +
        (metricScoreOf (aovNarr pv agg)).total := by
  simp [generateExecutiveSummary, salesNarr, trxNarr, aovNarr]

/-- Field access on the summary: the score-details dict (main.py lines
680-684). -/
lemma summary_scoreDetails (pv : List ℚ → ℚ) (agg : List MonthlyRow) :
    (generateExecutiveSummary pv agg).scoreDetails =
      [("Penjualan", metricScoreOf (salesNarr pv agg)),
       ("Transaksi", metricScoreOf (trxNarr pv agg)),
       ("AOV", metricScoreOf (aovNarr pv agg))] := by
  simp [generateExecutiveSummary, salesNarr, trxNarr, aovNarr]

/-- Field access on the summary: status and color come from the
classification of the composite score (main.py lines 688-695). -/
lemma summary_statusColor (pv : List ℚ → ℚ) (agg : List MonthlyRow) :
    ((generateExecutiveSummary pv agg).healthStatus,
        (generateExecutiveSummary pv agg).healthColor) =
      healthStatusColor (generateExecutiveSummary pv agg).healthScore := by
  simp [generateExecutiveSummary]

/-- Field access on the summary: the context narrative (main.py lines
697-710). -/
lemma summary_context (pv : List ℚ → ℚ) (agg : List MonthlyRow) :
    (generateExecutiveSummary pv agg).healthContextNarrative =
      contextNarrativeOf (salesNarr pv agg) (trxNarr pv agg) (aovNarr pv agg) := by
  simp [generateExecutiveSummary, salesNarr, trxNarr, aovNarr]

/-- Field access on the summary: the YoY extraction (main.py lines
713-718). -/
lemma summary_yoyChange (pv : List ℚ → ℚ) (agg : List MonthlyRow) :
    (generateExecutiveSummary pv agg).yoyChange =
      yoyChangeValueOf (salesNarr pv agg) agg := by
  simp [generateExecutiveSummary, salesNarr]

/-- The 3-month rolling mean of `10, 20, 30, 40`. -/
lemma basket_rolling :
    rollingMean3 ([10, 20, 30, 40] : List ℚ) = [10, 15, 20, 30] := by
  simp [rollingMean3, List.range_succ]
  norm_num

/-- The narrative of `analyze_trend_v3` past both guards (main.py line 78). -/
lemma analyzeTrendV3_narrative (pv : List ℚ → ℚ) (df : List MonthlyRow)
    (col : MonthlyRow → Option ℚ) (label : String)
    (h3 : 3 ≤ (dropnaCol df col).length)
    (hc : 1 < (valsOf df col).dedup.length) :
    (analyzeTrendV3 pv df col label).narrative =
      "Secara keseluruhan, tren " ++ label ++ " cenderung " ++
        trendTypeOf (pv (valsOf df col)) (slopeOf (valsOf df col)) ++ "." ++
        momentumNarrativeOf (valsOf df col) ++ yoyNarrativeOf (valsOf df col) ++
        extremaNarrativeOf (dropnaCol df col) := by
  rw [analyzeTrendV3_ok pv df col label h3 hc]

/-- The p-value field of `analyze_trend_v3` past both guards. -/
lemma analyzeTrendV3_pValue (pv : List ℚ → ℚ) (df : List MonthlyRow)
    (col : MonthlyRow → Option ℚ) (label : String)
    (h3 : 3 ≤ (dropnaCol df col).length)
    (hc : 1 < (valsOf df col).dedup.length) :
    (analyzeTrendV3 pv df col label).p_value = some (pv (valsOf df col)) := by
  rw [analyzeTrendV3_ok pv df col label h3 hc]

end Helpers

/-- C6: for any input series with fewer than 3 non-null observations,
`analyze_trend_v3` returns a result whose only populated field is the
insufficient-data (minimum 3 months) narrative, and for any series with at
least 3 non-null observations whose non-null values are all identical it
returns only the constant-data narrative; in both cases `trendline`,
`ma_line` and `p_value` are absent, and since the embedded function is
total no exception is raised. -/
theorem C6_low_data_narratives (pv : List ℚ → ℚ) (df : List MonthlyRow)
    (col : MonthlyRow → Option ℚ) (label : String) :
    ((dropnaCol df col).length < 3 →
      analyzeTrendV3 pv df col label =
        { narrative := insufficientMsg, trendline := none, ma_line := none,
          p_value := none }) ∧
    (3 ≤ (dropnaCol df col).length →
      (∀ x ∈ valsOf df col, ∀ y ∈ valsOf df col, x = y) →
      analyzeTrendV3 pv df col label =
        { narrative := constantMsg, trendline := none, ma_line := none,
          p_value := none }) := by
  constructor
  · intro h
    exact analyzeTrendV3_insufficient pv df col label h
  · intro h3 hall
    exact analyzeTrendV3_constant pv df col label (by omega)
      (dedup_length_le_one_iff.2 hall)

/-- Witness for C6 at two concrete frames: a 2-month frame and a 6-month
constant-transactions frame. -/
theorem C6_witness :
    ((dropnaCol shortFrame (fun r => r.totalMonthlySales)).length < 3 ∧
      analyzeTrendV3 pValueModel shortFrame (fun r => r.totalMonthlySales)
          "Penjualan" =
        { narrative := insufficientMsg, trendline := none, ma_line := none,
          p_value := none }) ∧
    (3 ≤ (dropnaCol flatFrame (fun r => r.totalTransactions)).length ∧
      analyzeTrendV3 pValueModel flatFrame (fun r => r.totalTransactions)
          "Transaksi" =
        { narrative := constantMsg, trendline := none, ma_line := none,
          p_value := none }) :=
  ⟨⟨by decide,
    (C6_low_data_narratives pValueModel shortFrame (fun r => r.totalMonthlySales)
      "Penjualan").1 (by decide)⟩,
   ⟨by decide,
    (C6_low_data_narratives pValueModel flatFrame (fun r => r.totalTransactions)
      "Transaksi").2 (by decide) (by decide)⟩⟩

/-- C7: the year-over-year computation is guarded: a series of exactly 12
non-null months produces no YoY clause; a 13-month series whose value 12
months before the last (its first value) is 0 produces no YoY clause; a
non-empty YoY clause can only arise with at least 13 months and a positive
value at index `n-13` (so the division never runs on a non-positive
denominator); and a 13-month series going from 100 to 150 produces the
YoY clause reporting +50.0%, which then appears in the narrative. -/
theorem C7_yoy_guard :
    (∀ ys : List ℚ, ys.length = 12 → yoyNarrativeOf ys = "") ∧
    (∀ ys : List ℚ, ys.length = 13 → ys.getD 0 0 = 0 → yoyNarrativeOf ys = "") ∧
    (∀ ys : List ℚ, yoyNarrativeOf ys ≠ "" →
      13 ≤ ys.length ∧ 0 < ys.getD (ys.length - 13) 0) ∧
    (∀ ys : List ℚ, ys.length = 13 → ys.getD 0 0 = 100 → ys.getD 12 0 = 150 →
      yoyNarrativeOf ys =
        " Dibandingkan bulan yang sama tahun lalu, performa bulan terakhir **tumbuh 50.0%**.") ∧
    (∀ (pv : List ℚ → ℚ) (df : List MonthlyRow) (col : MonthlyRow → Option ℚ)
        (label : String),
      (valsOf df col).length = 13 → (valsOf df col).getD 0 0 = 100 →
      (valsOf df col).getD 12 0 = 150 →
      pyIn "tumbuh 50.0%" (analyzeTrendV3 pv df col label).narrative) := by
  refine ⟨?_, ?_, ?_, ?_, ?_⟩
  · intro ys h
    unfold yoyNarrativeOf
    rw [h]
    norm_num
  · intro ys h hv
    unfold yoyNarrativeOf
    rw [List.getD_eq_getElem?_getD] at hv
    rw [h]
    norm_num
    intro h0
    rw [hv] at h0
    norm_num at h0
  · intro ys h
    simp only [yoyNarrativeOf] at h
    split_ifs at h with h1 h2 h3
    · exact ⟨h1, h2⟩
    · exact ⟨h1, h2⟩
    · exact absurd rfl h
    · exact absurd rfl h
  · intro ys h13 h0 h12
    exact yoy_100_150 h13 h0 h12
  · intro pv df col label h13 h0 h12
    have h3 : 3 ≤ (dropnaCol df col).length := by
      rw [← valsOf_length, h13]
      norm_num
    have hm0 : (100 : ℚ) ∈ valsOf df col := by
      rw [← h0]
      exact getD_mem_of_lt (by omega)
    have hm12 : (150 : ℚ) ∈ valsOf df col := by
      rw [← h12]
      exact getD_mem_of_lt (by omega)
    have hc : 1 < (valsOf df col).dedup.length :=
      one_lt_dedup_length hm0 hm12 (by norm_num)
    have hyoy := yoy_100_150 h13 h0 h12
    have hin : pyIn "tumbuh 50.0%"
        (" Dibandingkan bulan yang sama tahun lalu, performa bulan terakhir **tumbuh 50.0%**." : String) := by
      decide
    rw [analyzeTrendV3_narrative pv df col label h3 hc, hyoy]
    exact pyIn_trans hin (pyIn_narrative_yoy _ _ _ _ _)

/-- Witness for C7 at concrete series: a 12-month series, a 13-month series
starting at 0, and the 13-month frame `yoyFrame` going from 100 to 150. -/
theorem C7_witness :
    yoyNarrativeOf ([1, 2, 3, 4, 5, 6, 7, 8, 9, 10, 11, 12] : List ℚ) = "" ∧
    yoyNarrativeOf ([0, 5, 5, 5, 5, 5, 5, 5, 5, 5, 5, 5, 9] : List ℚ) = "" ∧
    yoyNarrativeOf
        ([100, 100, 100, 100, 100, 100, 100, 100, 100, 100, 100, 100, 150] : List ℚ) =
      " Dibandingkan bulan yang sama tahun lalu, performa bulan terakhir **tumbuh 50.0%**." ∧
    pyIn "tumbuh 50.0%"
      (analyzeTrendV3 pValueModel yoyFrame (fun r => r.totalMonthlySales)
        "Penjualan").narrative :=
  ⟨C7_yoy_guard.1 _ (by decide),
   C7_yoy_guard.2.1 _ (by decide) (by decide),
   C7_yoy_guard.2.2.2.1 _ (by decide) (by decide) (by decide),
   C7_yoy_guard.2.2.2.2 pValueModel yoyFrame (fun r => r.totalMonthlySales)
     "Penjualan" (by decide) (by decide) (by decide)⟩

/-- C2 (amended): for every series with at least 4 non-null observations
(and more than one distinct value), `analyze_trend_v3` compares the last
two values of the 3-month rolling mean; if the latest exceeds the prior
the narrative contains the positive-momentum clause, and in every other
case — the latest strictly smaller, or the two values exactly equal — it
contains the slowing-momentum clause.  (The original claim said the
momentum clause is omitted on exact equality; the `if a > b ... else` of the code
emits the slowing clause there, see the counterexample.) -/
theorem C2_momentum_clause (pv : List ℚ → ℚ) (df : List MonthlyRow)
    (col : MonthlyRow → Option ℚ) (label : String)
    (h4 : 4 ≤ (valsOf df col).length)
    (hc : 1 < (valsOf df col).dedup.length) :
    ((rollingMean3 (valsOf df col)).getD ((valsOf df col).length - 1) 0 >
        (rollingMean3 (valsOf df col)).getD ((valsOf df col).length - 2) 0 →
      pyIn positifClause (analyzeTrendV3 pv df col label).narrative) ∧
    ((rollingMean3 (valsOf df col)).getD ((valsOf df col).length - 1) 0 <
        (rollingMean3 (valsOf df col)).getD ((valsOf df col).length - 2) 0 →
      pyIn perlambatanClause (analyzeTrendV3 pv df col label).narrative) ∧
    ((rollingMean3 (valsOf df col)).getD ((valsOf df col).length - 1) 0 =
        (rollingMean3 (valsOf df col)).getD ((valsOf df col).length - 2) 0 →
      pyIn perlambatanClause (analyzeTrendV3 pv df col label).narrative) := by
  have h3 : 3 ≤ (dropnaCol df col).length := by
    rw [← valsOf_length]
    omega
  have hN := analyzeTrendV3_narrative pv df col label h3 hc
  refine ⟨fun hgt => ?_, fun hlt => ?_, fun heq => ?_⟩
  · rw [hN, momentumNarrativeOf_pos h4 hgt]
    exact pyIn_narrative_mom _ _ _ _ _
  · rw [hN, momentumNarrativeOf_slow h4 (not_lt_of_gt hlt)]
    exact pyIn_narrative_mom _ _ _ _ _
  · rw [hN, momentumNarrativeOf_slow h4 (by rw [heq]; exact lt_irrefl _)]
    exact pyIn_narrative_mom _ _ _ _ _

/-- C2 counterexample: on the four-month series `5, 1, 2, 5` the last two
3-month rolling means are exactly equal (both 8/3), yet the narrative does
contain a momentum clause — the slowing one — contradicting the claim that
no momentum clause appears on exact equality. -/
theorem C2_counterexample :
    (rollingMean3 (valsOf eqMaFrame (fun r => r.totalMonthlySales))).getD 3 0 =
      (rollingMean3 (valsOf eqMaFrame (fun r => r.totalMonthlySales))).getD 2 0 ∧
    pyIn perlambatanClause
      (analyzeTrendV3 pValueModel eqMaFrame (fun r => r.totalMonthlySales)
        "Penjualan").narrative := by
  have hr : rollingMean3 (valsOf eqMaFrame (fun r => r.totalMonthlySales)) =
      [5, 3, 8 / 3, 8 / 3] := by
    rw [eqMaFrame_vals, eqMaFrame_rolling]
  constructor
  · rw [hr]
    rfl
  · have h3 : 3 ≤ (dropnaCol eqMaFrame (fun r => r.totalMonthlySales)).length := by
      decide
    have hc : 1 < (valsOf eqMaFrame (fun r => r.totalMonthlySales)).dedup.length := by
      decide
    have h4 : 4 ≤ (valsOf eqMaFrame (fun r => r.totalMonthlySales)).length := by
      decide
    have hmom : momentumNarrativeOf (valsOf eqMaFrame (fun r => r.totalMonthlySales)) =
        perlambatanClause := by
      apply momentumNarrativeOf_slow h4
      rw [eqMaFrame_vals] at hr ⊢
      rw [show (([5, 1, 2, 5] : List ℚ)).length = 4 from rfl, hr]
      norm_num
    rw [analyzeTrendV3_narrative pValueModel eqMaFrame
      (fun r => r.totalMonthlySales) "Penjualan" h3 hc, hmom]
    exact pyIn_narrative_mom _ _ _ _ _

/-- Witness for the amended C2 at the four-month frame with sales
`10, 20, 30, 40`: the last two rolling means are 30 > 20 and the narrative
carries the positive-momentum clause. -/
theorem C2_witness :
    4 ≤ (valsOf basketFrame (fun r => r.totalMonthlySales)).length ∧
    1 < (valsOf basketFrame (fun r => r.totalMonthlySales)).dedup.length ∧
    pyIn positifClause
      (analyzeTrendV3 pValueModel basketFrame (fun r => r.totalMonthlySales)
        "Penjualan").narrative := by
  refine ⟨by decide, by decide, ?_⟩
  apply (C2_momentum_clause pValueModel basketFrame
    (fun r => r.totalMonthlySales) "Penjualan" (by decide) (by decide)).1
  rw [basketFrame_sales, basket_rolling]
  norm_num

/-- C8: on a perfectly linear strictly increasing series of at least 3
months the embedded OLS fit has slope equal to the (positive) common
difference and zero residuals, so the modelled scipy p-value is 0 (< 0.05)
and the classification is the significantly-increasing one, which lands in
the narrative along with `p_value = 0`; symmetrically, for any oracle, a
significant (`p < 0.05`) negative slope yields the significantly-decreasing
classification, and `p ≥ 0.05` yields stable/fluctuating. -/
theorem C8_regression_classification :
    (∀ a d : ℚ, ∀ n : Nat, 0 < d → 3 ≤ n →
      slopeOf (arithL a d n) = d ∧ sseOf (arithL a d n) = 0 ∧
      pValueModel (arithL a d n) = 0 ∧
      trendTypeOf (pValueModel (arithL a d n)) (slopeOf (arithL a d n)) =
        meningkatFull) ∧
    (∀ a d : ℚ, ∀ n : Nat, ∀ (df : List MonthlyRow)
        (col : MonthlyRow → Option ℚ) (label : String),
      0 < d → 3 ≤ n → valsOf df col = arithL a d n →
      pyIn upNeedle (analyzeTrendV3 pValueModel df col label).narrative ∧
      (analyzeTrendV3 pValueModel df col label).p_value = some 0) ∧
    (∀ (pv : List ℚ → ℚ) (df : List MonthlyRow) (col : MonthlyRow → Option ℚ)
        (label : String),
      3 ≤ (valsOf df col).length → 1 < (valsOf df col).dedup.length →
      (pv (valsOf df col) < 0.05 → slopeOf (valsOf df col) < 0 →
        pyIn downNeedle (analyzeTrendV3 pv df col label).narrative) ∧
      (0.05 ≤ pv (valsOf df col) →
        pyIn stabilStr (analyzeTrendV3 pv df col label).narrative)) := by
  have harith : ∀ a d : ℚ, ∀ n : Nat, 0 < d → 3 ≤ n →
      slopeOf (arithL a d n) = d ∧ sseOf (arithL a d n) = 0 ∧
      pValueModel (arithL a d n) = 0 ∧
      trendTypeOf (pValueModel (arithL a d n)) (slopeOf (arithL a d n)) =
        meningkatFull := by
    intro a d n hd hn
    have h2 : 2 ≤ n := by omega
    refine ⟨slope_arith a d h2, sse_arith a d h2, pValueModel_arith a d h2, ?_⟩
    rw [pValueModel_arith a d h2, slope_arith a d h2]
    simp only [trendTypeOf, if_pos (by norm_num : (0 : ℚ) < 0.05), if_pos hd]
  refine ⟨harith, ?_, ?_⟩
  · intro a d n df col label hd hn hval
    have h3 : 3 ≤ (dropnaCol df col).length := by
      rw [← valsOf_length, hval, arithL_length]
      exact hn
    have ha : (arithL a d n).getD 0 0 = a := by
      rw [arithL_getD a d (show 0 < n by omega)]
      push_cast
      ring
    have hb : (arithL a d n).getD 1 0 = a + d := by
      rw [arithL_getD a d (show 1 < n by omega)]
      push_cast
      ring
    have hmema : a ∈ valsOf df col := by
      rw [hval]
      have hm := getD_mem_of_lt (l := arithL a d n) (i := 0)
        (by rw [arithL_length]; omega)
      rwa [ha] at hm
    have hmemb : a + d ∈ valsOf df col := by
      rw [hval]
      have hm := getD_mem_of_lt (l := arithL a d n) (i := 1)
        (by rw [arithL_length]; omega)
      rwa [hb] at hm
    have hc : 1 < (valsOf df col).dedup.length :=
      one_lt_dedup_length hmema hmemb (by intro h; linarith)
    have htt : trendTypeOf (pValueModel (valsOf df col))
        (slopeOf (valsOf df col)) = meningkatFull := by
      rw [hval]
      exact (harith a d n hd hn).2.2.2
    constructor
    · rw [analyzeTrendV3_narrative pValueModel df col label h3 hc, htt]
      exact pyIn_trans upNeedle_in_meningkat (pyIn_narrative_trend _ _ _ _ _)
    · rw [analyzeTrendV3_pValue pValueModel df col label h3 hc, hval,
        (harith a d n hd hn).2.2.1]
  · intro pv df col label h3v hc
    have h3 : 3 ≤ (dropnaCol df col).length := by
      rw [← valsOf_length]
      exact h3v
    constructor
    · intro hp hs
      have hns : ¬ slopeOf (valsOf df col) > 0 := by linarith
      have htt : trendTypeOf (pv (valsOf df col)) (slopeOf (valsOf df col)) =
          menurunFull := by
        simp only [trendTypeOf, if_pos hp, if_neg hns]
      rw [analyzeTrendV3_narrative pv df col label h3 hc, htt]
      exact pyIn_trans downNeedle_in_menurun (pyIn_narrative_trend _ _ _ _ _)
    · intro hp
      have htt : trendTypeOf (pv (valsOf df col)) (slopeOf (valsOf df col)) =
          stabilStr := by
        simp only [trendTypeOf, if_neg (not_lt.2 hp)]
      rw [analyzeTrendV3_narrative pv df col label h3 hc, htt]
      exact pyIn_narrative_trend _ _ _ _ _

/-- Witness for C8 at the example series `100, 200, ..., 600`
(the sales column of `linFrame`). -/
theorem C8_witness :
    slopeOf (arithL 100 100 6) = 100 ∧ pValueModel (arithL 100 100 6) = 0 ∧
    valsOf linFrame (fun r => r.totalMonthlySales) = arithL 100 100 6 ∧
    pyIn upNeedle
      (analyzeTrendV3 pValueModel linFrame (fun r => r.totalMonthlySales)
        "Penjualan").narrative ∧
    (analyzeTrendV3 pValueModel linFrame (fun r => r.totalMonthlySales)
        "Penjualan").p_value = some 0 := by
  have hval : valsOf linFrame (fun r => r.totalMonthlySales) = arithL 100 100 6 := by
    rw [linFrame_vals, arithL_100_100_6]
  have h1 := (C8_regression_classification.1 100 100 6 (by norm_num) (by norm_num))
  have h2 := C8_regression_classification.2.1 100 100 6 linFrame
    (fun r => r.totalMonthlySales) "Penjualan" (by norm_num) (by norm_num) hval
  exact ⟨h1.1, h1.2.2.1, hval, h2.1, h2.2⟩

/-- C1 counterexample: the claimed thresholds (`> 5` Very Good, `≥ 2` Good,
`≤ -5` Alert, else Needs Attention) fail on the code.  The embedded
classification of main.py lines 688-695 maps the composite score 1 to
`("Baik", "green")` (Good) where the claim predicts Needs Attention, and
-4 to `("Waspada", "red")` (Alert) where the claim predicts Needs
Attention. -/
theorem C1_counterexample :
    healthStatusColor 1 = ("Baik", "green") ∧
    healthStatusColor 1 ≠ ("Perlu Perhatian", "orange") ∧
    healthStatusColor (-4) = ("Waspada", "red") ∧
    healthStatusColor (-4) ≠ ("Perlu Perhatian", "orange") := by
  refine ⟨by decide, by decide, by decide, by decide⟩

/-- C1 (amended): the status classification of `generate_executive_summary`
applies, in order with first match winning, `score > 4` giving
`Sangat Baik` (Very Good), `score ≥ 1` giving `Baik` (Good), `score ≤ -4`
giving `Waspada` (Alert), and otherwise `Perlu Perhatian` (Needs
Attention); so the composite scores 6, 2, 1, 0, -4, -5, -6 classify as
Very Good, Good, Good, Needs Attention, Alert, Alert, Alert.  The
status/color pair of the summary is exactly this classification applied to its
composite score. -/
theorem C1_status_thresholds :
    healthStatusColor 6 = ("Sangat Baik", "green") ∧
    healthStatusColor 2 = ("Baik", "green") ∧
    healthStatusColor 1 = ("Baik", "green") ∧
    healthStatusColor 0 = ("Perlu Perhatian", "orange") ∧
    healthStatusColor (-4) = ("Waspada", "red") ∧
    healthStatusColor (-5) = ("Waspada", "red") ∧
    healthStatusColor (-6) = ("Waspada", "red") ∧
    ∀ (pv : List ℚ → ℚ) (agg : List MonthlyRow),
      ((generateExecutiveSummary pv agg).healthStatus,
          (generateExecutiveSummary pv agg).healthColor) =
        healthStatusColor (generateExecutiveSummary pv agg).healthScore := by
  refine ⟨by decide, by decide, by decide, by decide, by decide, by decide,
    by decide, fun pv agg => summary_statusColor pv agg⟩

section YoyFrameFacts

/-- Evaluation of the YoY extraction (main.py lines 713-718) on a sales
history of 13 non-null months going from 100 to 150. -/
lemma yoyChangeValueOf_100_150 (narr : String) (agg : List MonthlyRow)
    (hin : pyIn "Dibandingkan bulan yang sama tahun lalu" narr)
    (h13 : (agg.filterMap (fun r => r.totalMonthlySales)).length = 13)
    (h0 : (agg.filterMap (fun r => r.totalMonthlySales)).getD 0 0 = 100)
    (h12 : (agg.filterMap (fun r => r.totalMonthlySales)).getD 12 0 = 150) :
    yoyChangeValueOf narr agg = some (1 / 2) := by
  simp only [yoyChangeValueOf]
  rw [List.getD_eq_getElem?_getD] at h0 h12
  rw [if_pos hin, h13]
  norm_num
  rw [h0, h12]
  norm_num

/-- The sales narrative of `yoyFrame` carries the YoY sentence. -/
lemma yoyFrame_sales_has_yoy :
    pyIn "Dibandingkan bulan yang sama tahun lalu"
      (salesNarr pValueModel yoyFrame) := by
  unfold salesNarr
  have hyoy : yoyNarrativeOf (valsOf yoyFrame (fun r => r.totalMonthlySales)) =
      " Dibandingkan bulan yang sama tahun lalu, performa bulan terakhir **tumbuh 50.0%**." :=
    yoy_100_150 (by decide) (by decide) (by decide)
  rw [analyzeTrendV3_narrative pValueModel yoyFrame
    (fun r => r.totalMonthlySales) "Penjualan" (by decide) (by decide), hyoy]
  exact pyIn_trans (by decide) (pyIn_narrative_yoy _ _ _ _ _)

/-- The summary on `yoyFrame` reports a +50% YoY change. -/
lemma yoyFrame_summary_yoyChange :
    (generateExecutiveSummary pValueModel yoyFrame).yoyChange = some (1 / 2) := by
  rw [summary_yoyChange]
  exact yoyChangeValueOf_100_150 _ _ yoyFrame_sales_has_yoy (by decide)
    (by decide) (by decide)

end YoyFrameFacts

/-- C3 counterexample: on `yoyFrame` the YoY change is +50% (fraction 1/2,
which under the claimed mapping would contribute `yoy_score = +2`), yet
the summary records exactly the three pseudo-metrics `Penjualan`,
`Transaksi`, `AOV` — no fourth "YoY" entry — and its composite health
score is just the sum of those three totals, with no yoy term added. -/
theorem C3_counterexample :
    (generateExecutiveSummary pValueModel yoyFrame).yoyChange = some (1 / 2) ∧
    ((generateExecutiveSummary pValueModel yoyFrame).scoreDetails.map
      Prod.fst) = ["Penjualan", "Transaksi", "AOV"] ∧
    (generateExecutiveSummary pValueModel yoyFrame).healthScore =
      ((generateExecutiveSummary pValueModel yoyFrame).scoreDetails.map
        (fun p => p.2.total)).sum := by
  refine ⟨yoyFrame_summary_yoyChange, ?_, ?_⟩
  · rw [summary_scoreDetails]
    rfl
  · rw [summary_healthScore, summary_scoreDetails]
    simp
    ring

/-- C3 (amended): the composite health score used for status classification
is the trend health score alone — the sum of the three per-metric totals;
the score-details dict has exactly the keys `Penjualan`, `Transaksi`,
`AOV` (no "YoY" pseudo-metric); the status/color pair is the
classification of that score; and `yoy_change` is extracted separately
(main.py lines 713-718) for display only: whenever it is `some c`, the
sales column had at least 13 non-null months, the value 12 months before
the last is positive, and `c = (last - prior) / prior`. -/
theorem C3_composite_score (pv : List ℚ → ℚ) (agg : List MonthlyRow) :
    (generateExecutiveSummary pv agg).healthScore =
      (metricScoreOf (salesNarr pv agg)).total +
        (metricScoreOf (trxNarr pv agg)).total +
        (metricScoreOf (aovNarr pv agg)).total ∧
    ((generateExecutiveSummary pv agg).scoreDetails.map Prod.fst) =
      ["Penjualan", "Transaksi", "AOV"] ∧
    ((generateExecutiveSummary pv agg).healthStatus,
        (generateExecutiveSummary pv agg).healthColor) =
      healthStatusColor (generateExecutiveSummary pv agg).healthScore ∧
    (generateExecutiveSummary pv agg).yoyChange =
      yoyChangeValueOf (salesNarr pv agg) agg ∧
    (∀ c : ℚ, (generateExecutiveSummary pv agg).yoyChange = some c →
      13 ≤ (agg.filterMap (fun r => r.totalMonthlySales)).length ∧
      0 < (agg.filterMap (fun r => r.totalMonthlySales)).getD
        ((agg.filterMap (fun r => r.totalMonthlySales)).length - 13) 0 ∧
      c = ((agg.filterMap (fun r => r.totalMonthlySales)).getD
            ((agg.filterMap (fun r => r.totalMonthlySales)).length - 1) 0 -
          (agg.filterMap (fun r => r.totalMonthlySales)).getD
            ((agg.filterMap (fun r => r.totalMonthlySales)).length - 13) 0) /
        (agg.filterMap (fun r => r.totalMonthlySales)).getD
          ((agg.filterMap (fun r => r.totalMonthlySales)).length - 13) 0) := by
  refine ⟨summary_healthScore pv agg, by rw [summary_scoreDetails]; rfl,
    summary_statusColor pv agg, summary_yoyChange pv agg, ?_⟩
  intro c hc
  rw [summary_yoyChange] at hc
  simp only [yoyChangeValueOf] at hc
  split_ifs at hc with h1 h2 h3
  · refine ⟨h2, h3, ?_⟩
    simp only [Option.some.injEq] at hc
    exact hc.symm

/-- Witness for the amended C3 at `yoyFrame`, where the YoY extraction is
`some (1/2)`. -/
theorem C3_witness :
    (generateExecutiveSummary pValueModel yoyFrame).yoyChange = some (1 / 2) ∧
    (13 ≤ (yoyFrame.filterMap (fun r => r.totalMonthlySales)).length ∧
      0 < (yoyFrame.filterMap (fun r => r.totalMonthlySales)).getD
        ((yoyFrame.filterMap (fun r => r.totalMonthlySales)).length - 13) 0 ∧
      (1 / 2 : ℚ) =
        ((yoyFrame.filterMap (fun r => r.totalMonthlySales)).getD
            ((yoyFrame.filterMap (fun r => r.totalMonthlySales)).length - 1) 0 -
          (yoyFrame.filterMap (fun r => r.totalMonthlySales)).getD
            ((yoyFrame.filterMap (fun r => r.totalMonthlySales)).length - 13) 0) /
        (yoyFrame.filterMap (fun r => r.totalMonthlySales)).getD
          ((yoyFrame.filterMap (fun r => r.totalMonthlySales)).length - 13) 0) :=
  ⟨yoyFrame_summary_yoyChange,
   (C3_composite_score pValueModel yoyFrame).2.2.2.2 (1 / 2)
     yoyFrame_summary_yoyChange⟩

/-- C4: every per-metric score detail satisfies
`total = long_term_trend_component + momentum_component` exactly, for the
three metrics of every summary, with the trend component in `{-2, 0, 2}`
and the momentum component in `{-1, 0, 1}`; the composite score is the sum
of the three totals; and every combination of the Cartesian product
`{2, 0, -2} × {1, 0, -1}` is realized by some narrative. -/
theorem C4_total_additivity :
    (∀ narr : String,
      (metricScoreOf narr).total = trendScoreOf narr + momentumScoreOf narr ∧
      (metricScoreOf narr).trenJangkaPanjang = trendScoreOf narr ∧
      (metricScoreOf narr).momentumJangkaPendek = momentumScoreOf narr) ∧
    (∀ (pv : List ℚ → ℚ) (agg : List MonthlyRow),
      (generateExecutiveSummary pv agg).scoreDetails.Forall
        (fun p => p.2.total = p.2.trenJangkaPanjang + p.2.momentumJangkaPendek) ∧
      (generateExecutiveSummary pv agg).healthScore =
        ((generateExecutiveSummary pv agg).scoreDetails.map
          (fun p => p.2.total)).sum) ∧
    List.Forall
      (fun tm : Int × Int => ∃ narr : String, trendScoreOf narr = tm.1 ∧
        momentumScoreOf narr = tm.2 ∧ (metricScoreOf narr).total = tm.1 + tm.2)
      [(2, 1), (2, 0), (2, -1), (0, 1), (0, 0), (0, -1), (-2, 1), (-2, 0),
        (-2, -1)] := by
  refine ⟨fun narr => ⟨rfl, rfl, rfl⟩, fun pv agg => ⟨?_, ?_⟩, ?_⟩
  · rw [summary_scoreDetails]
    exact ⟨rfl, rfl, rfl⟩
  · rw [summary_healthScore, summary_scoreDetails]
    simp
    ring
  · exact ⟨⟨upNeedle ++ positifNeedle, by decide, by decide, by decide⟩,
      ⟨upNeedle, by decide, by decide, by decide⟩,
      ⟨upNeedle ++ perlambatanNeedle, by decide, by decide, by decide⟩,
      ⟨positifNeedle, by decide, by decide, by decide⟩,
      ⟨"", by decide, by decide, by decide⟩,
      ⟨perlambatanNeedle, by decide, by decide, by decide⟩,
      ⟨downNeedle ++ positifNeedle, by decide, by decide, by decide⟩,
      ⟨downNeedle, by decide, by decide, by decide⟩,
      ⟨downNeedle ++ perlambatanNeedle, by decide, by decide, by decide⟩⟩

/-- C5: the context narrative of `generate_executive_summary` follows
exactly the three diagnostic patterns over the per-metric significance
booleans, in priority order with first match winning: sales up, AOV up,
transactions not up gives the basket-value insight; sales up, transactions
up, AOV down gives the discounting warning; sales down, transactions up,
AOV down gives the AOV-decline alert; when none match the field is the
empty string. -/
theorem C5_context_patterns (pv : List ℚ → ℚ) (agg : List MonthlyRow) :
    ((pyIn upNeedle (salesNarr pv agg) ∧ pyIn upNeedle (aovNarr pv agg) ∧
        ¬ pyIn upNeedle (trxNarr pv agg)) →
      (generateExecutiveSummary pv agg).healthContextNarrative = insightMsg) ∧
    (¬ (pyIn upNeedle (salesNarr pv agg) ∧ pyIn upNeedle (aovNarr pv agg) ∧
        ¬ pyIn upNeedle (trxNarr pv agg)) →
      (pyIn upNeedle (salesNarr pv agg) ∧ pyIn upNeedle (trxNarr pv agg) ∧
        pyIn downNeedle (aovNarr pv agg)) →
      (generateExecutiveSummary pv agg).healthContextNarrative = diskonMsg) ∧
    (¬ (pyIn upNeedle (salesNarr pv agg) ∧ pyIn upNeedle (aovNarr pv agg) ∧
        ¬ pyIn upNeedle (trxNarr pv agg)) →
      ¬ (pyIn upNeedle (salesNarr pv agg) ∧ pyIn upNeedle (trxNarr pv agg) ∧
        pyIn downNeedle (aovNarr pv agg)) →
      (pyIn downNeedle (salesNarr pv agg) ∧ pyIn upNeedle (trxNarr pv agg) ∧
        pyIn downNeedle (aovNarr pv agg)) →
      (generateExecutiveSummary pv agg).healthContextNarrative = waspadaMsg) ∧
    (¬ (pyIn upNeedle (salesNarr pv agg) ∧ pyIn upNeedle (aovNarr pv agg) ∧
        ¬ pyIn upNeedle (trxNarr pv agg)) →
      ¬ (pyIn upNeedle (salesNarr pv agg) ∧ pyIn upNeedle (trxNarr pv agg) ∧
        pyIn downNeedle (aovNarr pv agg)) →
      ¬ (pyIn downNeedle (salesNarr pv agg) ∧ pyIn upNeedle (trxNarr pv agg) ∧
        pyIn downNeedle (aovNarr pv agg)) →
      (generateExecutiveSummary pv agg).healthContextNarrative = "") := by
  have hctx := summary_context pv agg
  refine ⟨fun h1 => ?_, fun hn1 h2 => ?_, fun hn1 hn2 h3 => ?_,
    fun hn1 hn2 hn3 => ?_⟩
  · rw [hctx]
    unfold contextNarrativeOf
    rw [if_pos h1]
  · rw [hctx]
    unfold contextNarrativeOf
    rw [if_neg hn1, if_pos h2]
  · rw [hctx]
    unfold contextNarrativeOf
    rw [if_neg hn1, if_neg hn2, if_pos h3]
  · rw [hctx]
    unfold contextNarrativeOf
    rw [if_neg hn1, if_neg hn2, if_neg hn3]

section BasketFrameFacts

/-- The sales narrative of `basketFrame` reports a significant increase. -/
lemma basket_sales_up : pyIn upNeedle (salesNarr pValueModel basketFrame) := by
  unfold salesNarr
  have hval : valsOf basketFrame (fun r => r.totalMonthlySales) =
      arithL 10 10 4 := by
    rw [basketFrame_sales, arithL_10_10_4]
  have htt : trendTypeOf
      (pValueModel (valsOf basketFrame (fun r => r.totalMonthlySales)))
      (slopeOf (valsOf basketFrame (fun r => r.totalMonthlySales))) =
      meningkatFull := by
    rw [hval, pValueModel_arith 10 10 (by norm_num), slope_arith 10 10 (by norm_num)]
    simp only [trendTypeOf, if_pos (by norm_num : (0 : ℚ) < 0.05),
      if_pos (by norm_num : (10 : ℚ) > 0)]
  rw [analyzeTrendV3_narrative pValueModel basketFrame
    (fun r => r.totalMonthlySales) "Penjualan" (by decide) (by decide), htt]
  exact pyIn_trans upNeedle_in_meningkat (pyIn_narrative_trend _ _ _ _ _)

/-- The AOV narrative of `basketFrame` reports a significant increase. -/
lemma basket_aov_up : pyIn upNeedle (aovNarr pValueModel basketFrame) := by
  unfold aovNarr
  have hval : valsOf basketFrame (fun r => r.aov) = arithL 10 10 4 := by
    rw [basketFrame_aov, arithL_10_10_4]
  have htt : trendTypeOf (pValueModel (valsOf basketFrame (fun r => r.aov)))
      (slopeOf (valsOf basketFrame (fun r => r.aov))) = meningkatFull := by
    rw [hval, pValueModel_arith 10 10 (by norm_num), slope_arith 10 10 (by norm_num)]
    simp only [trendTypeOf, if_pos (by norm_num : (0 : ℚ) < 0.05),
      if_pos (by norm_num : (10 : ℚ) > 0)]
  rw [analyzeTrendV3_narrative pValueModel basketFrame (fun r => r.aov) "AOV"
    (by decide) (by decide), htt]
  exact pyIn_trans upNeedle_in_meningkat (pyIn_narrative_trend _ _ _ _ _)

/-- The transactions narrative of `basketFrame` is the constant-data
message, so transactions are not significantly up. -/
lemma basket_trx_not_up : ¬ pyIn upNeedle (trxNarr pValueModel basketFrame) := by
  unfold trxNarr
  rw [analyzeTrendV3_constant pValueModel basketFrame
    (fun r => r.totalTransactions) "Transaksi" (by decide) (by decide)]
  decide

end BasketFrameFacts

/-- Witness for C5 (end-to-end scenario C) at `basketFrame`: sales and AOV
significantly up, transactions flat, so the context narrative is the
basket-value insight. -/
theorem C5_witness :
    pyIn upNeedle (salesNarr pValueModel basketFrame) ∧
    pyIn upNeedle (aovNarr pValueModel basketFrame) ∧
    ¬ pyIn upNeedle (trxNarr pValueModel basketFrame) ∧
    (generateExecutiveSummary pValueModel basketFrame).healthContextNarrative =
      insightMsg :=
  ⟨basket_sales_up, basket_aov_up, basket_trx_not_up,
   (C5_context_patterns pValueModel basketFrame).1
     ⟨basket_sales_up, basket_aov_up, basket_trx_not_up⟩⟩

/-- C10 (implicit invariants): in every summary each per-metric long-term
trend component is in `{-2, 0, 2}`, each momentum component in
`{-1, 0, 1}`, each total in `[-3, 3]`, the composite score in `[-9, 9]`,
and the (status, color) pair is one of exactly four combinations. -/
theorem C10_summary_invariants (pv : List ℚ → ℚ) (agg : List MonthlyRow) :
    (generateExecutiveSummary pv agg).scoreDetails.Forall
      (fun p =>
        (p.2.trenJangkaPanjang = -2 ∨ p.2.trenJangkaPanjang = 0 ∨
          p.2.trenJangkaPanjang = 2) ∧
        (p.2.momentumJangkaPendek = -1 ∨ p.2.momentumJangkaPendek = 0 ∨
          p.2.momentumJangkaPendek = 1) ∧
        -3 ≤ p.2.total ∧ p.2.total ≤ 3) ∧
    (-9 ≤ (generateExecutiveSummary pv agg).healthScore ∧
      (generateExecutiveSummary pv agg).healthScore ≤ 9) ∧
    (((generateExecutiveSummary pv agg).healthStatus,
        (generateExecutiveSummary pv agg).healthColor) =
        ("Sangat Baik", "green") ∨
      ((generateExecutiveSummary pv agg).healthStatus,
        (generateExecutiveSummary pv agg).healthColor) = ("Baik", "green") ∨
      ((generateExecutiveSummary pv agg).healthStatus,
        (generateExecutiveSummary pv agg).healthColor) =
        ("Perlu Perhatian", "orange") ∨
      ((generateExecutiveSummary pv agg).healthStatus,
        (generateExecutiveSummary pv agg).healthColor) = ("Waspada", "red")) := by
  have hone : ∀ narr : String,
      ((metricScoreOf narr).trenJangkaPanjang = -2 ∨
        (metricScoreOf narr).trenJangkaPanjang = 0 ∨
        (metricScoreOf narr).trenJangkaPanjang = 2) ∧
      ((metricScoreOf narr).momentumJangkaPendek = -1 ∨
        (metricScoreOf narr).momentumJangkaPendek = 0 ∨
        (metricScoreOf narr).momentumJangkaPendek = 1) ∧
      -3 ≤ (metricScoreOf narr).total ∧ (metricScoreOf narr).total ≤ 3 :=
    fun narr => ⟨trendScoreOf_cases narr, momentumScoreOf_cases narr,
      metricScoreOf_total_bounds narr⟩
  refine ⟨?_, ?_, ?_⟩
  · rw [summary_scoreDetails]
    exact ⟨hone _, hone _, hone _⟩
  · rw [summary_healthScore]
    have b1 := metricScoreOf_total_bounds (salesNarr pv agg)
    have b2 := metricScoreOf_total_bounds (trxNarr pv agg)
    have b3 := metricScoreOf_total_bounds (aovNarr pv agg)
    constructor <;> linarith [b1.1, b1.2, b2.1, b2.2, b3.1, b3.2]
  · rw [summary_statusColor pv agg]
    exact healthStatusColor_cases _

/-- C9: the state-passing rendition of `analyze_trend_v3` leaves the
`df_monthly` object of the caller unchanged — the only in-place mutation (the
`x_val` assignment of main.py line 53) hits the copy made at line 49 —
and its result is the pure function of the input series. -/
theorem C9_no_side_effects (pv : List ℚ → ℚ) (df : List MonthlyRow)
    (col : MonthlyRow → Option ℚ) (label : String) :
    (analyzeTrendV3Run pv df col label).1 = df ∧
    (analyzeTrendV3Run pv df col label).2 = analyzeTrendV3 pv df col label := by
  constructor
  · simp only [analyzeTrendV3Run]
    split_ifs <;> rfl
  · simp only [analyzeTrendV3Run, analyzeTrendV3]
    split_ifs <;> rfl

end StreamlitDashboard
